import Mathlib

/-!
Verification of the QuizTime realtime-quiz client (`le-q`).

The application is a thin client over a four-table database
(`rooms`, `players`, `questions`, `answers`; see
`supabase/migrations/20250722203219_falling_frog.sql`).  We embed the
database state as explicit lists of records and each client command as a
pure state-transition function, translated from the source:

* `generateRoomCode` / `createRoom` — `lib/supabase.ts`, `app/page.tsx`
* `joinRoom` — `app/page.tsx`
* `sendQuestion`, `endGame`, `markAnswerCorrect`, `updatePlayerScore` —
  `app/host/[roomId]/HostClient.tsx`
* `submitAnswer` — the player client (`PlayClient`)

Timestamps (`created_at`, `joined_at`, `submitted_at`) and `host_id` play
no role in any verified property and are omitted from the records.
Row ids are `gen_random_uuid()` in the database; we model them as a
fresh-id counter `nextId` on the state, which captures exactly the
uniqueness the code relies on.  The guard clauses by which the client
rejects a command (it shows a notification / alert and returns without
issuing any database write) are modelled as explicit result constructors,
one per guard branch of the source.
-/

namespace QuizTime

/-- A row of the `rooms` table (`Room` in `lib/supabase.ts`). -/
structure Room where
  id : Nat
  code : String
  name : String
  is_active : Bool
deriving Repr, DecidableEq

/-- A row of the `players` table.  `score` is an SQL `integer`
(default 0), so it is modelled as `Int`; the non-negativity claimed by
the spec is a property to be proved, not part of the type. -/
structure Player where
  id : Nat
  pseudo : String
  room_id : Nat
  score : Int
  is_connected : Bool
deriving Repr, DecidableEq

/-- A row of the `questions` table. -/
structure Question where
  id : Nat
  room_id : Nat
  text : String
  correct_answer : String
  is_active : Bool
deriving Repr, DecidableEq

/-- A row of the `answers` table.  The client code inserts and filters on
a `room_id` column of `answers` (`submitAnswer`, `sendQuestion`,
`endGame`), so the record carries it. -/
structure Answer where
  id : Nat
  player_id : Nat
  question_id : Nat
  room_id : Nat
  text : String
  response_time : Nat
  is_correct : Bool
deriving Repr, DecidableEq

/-- The database state: the four tables plus a fresh-id counter standing
for `gen_random_uuid()`. -/
structure DB where
  rooms : List Room
  players : List Player
  questions : List Question
  answers : List Answer
  nextId : Nat
deriving Repr, DecidableEq

/-- The local state of one player client session (`PlayClient`): the
question currently displayed and whether this session already submitted
an answer to it.  `hasAnswered` is set after a successful insert and,
on page load, from whether the database already holds this player's
answer to the active question. -/
structure PlayState where
  currentQuestion : Option Question
  hasAnswered : Bool
deriving Repr, DecidableEq

/-- The whitespace set of JavaScript's `String.prototype.trim` (the
characters the application can meet in form input). -/
def isWhite (c : Char) : Bool :=
  c == ' ' || c == '\t' || c == '\n' || c == '\r'

/-- `String.prototype.trim`: strip leading and trailing whitespace. -/
def jsTrimList (l : List Char) : List Char :=
  ((l.dropWhile isWhite).reverse.dropWhile isWhite).reverse

/-- `s.trim()` on the character-list carrier. -/
def jsTrim (s : String) : String :=
  String.mk (jsTrimList s.toList)

/-- `s.toUpperCase()` on the character-list carrier. -/
def jsToUpper (s : String) : String :=
  String.mk (s.toList.map Char.toUpper)

/-- The source of `generateRoomCode`:
`Math.random().toString(36).substring(2, 8).toUpperCase()`.
A random draw in `[0,1)` is represented by the base-36 fractional digits
that `Number.prototype.toString(36)` prints (trailing zeros omitted, so
the list may have any length, including zero for the draw 0). -/
def base36DigitChar (d : Fin 36) : Char :=
  if d.val < 10 then Char.ofNat (48 + d.val) else Char.ofNat (87 + d.val)

/-- `toString(36)` of a draw in `[0,1)`: the literal `"0"` for zero,
otherwise `"0."` followed by the fractional digits. -/
def jsRandomToString36 (digits : List (Fin 36)) : String :=
  if digits.isEmpty then "0"
  else "0." ++ String.mk (digits.map base36DigitChar)

/-- `generateRoomCode` from `lib/supabase.ts`.  `substring(2, 8)` keeps
the characters at indices 2..7 (clamped to the string length), i.e. it
drops the leading `"0."` and keeps at most six fractional digits;
`toUpperCase` upcases each character. -/
def generateRoomCode (digits : List (Fin 36)) : String :=
  String.mk ((((jsRandomToString36 digits).toList.drop 2).take 6).map Char.toUpper)

/-- Outcome of `createRoom` (`app/page.tsx`).  The insert into `rooms`
either succeeds or fails (the `code` column is `UNIQUE`, so a colliding
code makes the insert error out; the client catches the error and shows
an alert — there is no retry). -/
inductive CreateResult where
  | ok (r : Room)
  | dbError
deriving Repr, DecidableEq

/-- `createRoom` from `app/page.tsx`: one insert of
`{code: generateRoomCode(), name: "Nouvelle partie", is_active: true}`;
the unique constraint on `rooms.code` rejects a colliding code. -/
def createRoom (db : DB) (digits : List (Fin 36)) : CreateResult × DB :=
  let code := generateRoomCode digits
  if db.rooms.any (fun r => r.code == code) then
    (CreateResult.dbError, db)
  else
    let room : Room :=
      { id := db.nextId, code := code, name := "Nouvelle partie", is_active := true }
    (CreateResult.ok room,
     { db with rooms := db.rooms ++ [room], nextId := db.nextId + 1 })

/-- Outcome of `joinRoom` (`app/page.tsx`): `missingInput` is the alert
shown when the trimmed code or pseudo is empty (no request is made);
`notFound` is the `"Salle introuvable ou inactive"` error when no active
room matches the code. -/
inductive JoinResult where
  | ok (p : Player)
  | missingInput
  | notFound
deriving Repr, DecidableEq

/-- `joinRoom` from `app/page.tsx`: normalises the code with
`trim().toUpperCase()`, looks up an active room with that code
(`.eq("code", code).eq("is_active", true).single()`), then inserts a
player with the database defaults `score = 0`, `is_connected = true`. -/
def joinRoom (db : DB) (codeInput pseudoInput : String) : JoinResult × DB :=
  let code := jsToUpper (jsTrim codeInput)
  let name := jsTrim pseudoInput
  if code == "" || name == "" then (JoinResult.missingInput, db)
  else
    match db.rooms.find? (fun r => r.code == code && r.is_active) with
    | none => (JoinResult.notFound, db)
    | some room =>
      let p : Player :=
        { id := db.nextId, pseudo := name, room_id := room.id,
          score := 0, is_connected := true }
      (JoinResult.ok p,
       { db with players := db.players ++ [p], nextId := db.nextId + 1 })

/-- Outcome of `sendQuestion` (`HostClient.tsx`): `invalidArgument` is
the guard branch that shows `"⚠️ Veuillez saisir une question et une
réponse"` and returns without touching the database. -/
inductive SendResult where
  | ok (q : Question)
  | invalidArgument
deriving Repr, DecidableEq

/-- The row update `UPDATE questions SET is_active = false WHERE
room_id = roomId AND is_active = true`, applied to one row. -/
def deactivateIn (roomId : Nat) (q : Question) : Question :=
  if q.room_id == roomId && q.is_active then { q with is_active := false } else q

/-- The question row a successful `sendQuestion` inserts: trimmed text
and answer, `is_active = true`, fresh id. -/
def newQuestionRec (db : DB) (roomId : Nat) (text ans : String) : Question :=
  { id := db.nextId, room_id := roomId,
    text := jsTrim text, correct_answer := jsTrim ans, is_active := true }

/-- `sendQuestion` from `HostClient.tsx`.  Guard: empty trimmed text or
answer is rejected.  Otherwise: deactivate the active question of the
room, insert the new question with trimmed text and answer and
`is_active = true`, and delete every answer of the room
(`DELETE FROM answers WHERE room_id = roomId`; the source performs the
delete after the insert — the resulting state is the same). -/
def sendQuestion (db : DB) (roomId : Nat) (text ans : String) : SendResult × DB :=
  if jsTrim text == "" || jsTrim ans == "" then (SendResult.invalidArgument, db)
  else
    let newQ : Question := newQuestionRec db roomId text ans
    (SendResult.ok newQ,
     { db with
        questions := db.questions.map (deactivateIn roomId) ++ [newQ],
        answers := db.answers.filter (fun a => a.room_id != roomId),
        nextId := db.nextId + 1 })

/-- A sequence of `sendQuestion` calls on one room, each call given the
text and answer it sends. -/
def sendQuestionSeq (roomId : Nat) (calls : List (String × String)) (db : DB) : DB :=
  calls.foldl (fun s c => (sendQuestion s roomId c.1 c.2).2) db

/-- Number of active questions a room has. -/
def countActiveQuestions (db : DB) (roomId : Nat) : Nat :=
  (db.questions.filter (fun q => q.room_id == roomId && q.is_active)).length

/-- `endGame` from `HostClient.tsx`: deletes the room's answers,
questions and players (`DELETE ... WHERE room_id = roomId`) and then the
room row itself. -/
def endGame (db : DB) (roomId : Nat) : DB :=
  { db with
    answers := db.answers.filter (fun a => a.room_id != roomId),
    questions := db.questions.filter (fun q => q.room_id != roomId),
    players := db.players.filter (fun p => p.room_id != roomId),
    rooms := db.rooms.filter (fun r => r.id != roomId) }

/-- `markAnswerCorrect` from `HostClient.tsx`, taking the answer row the
host clicked (the client's copy of the stored row, with its joined
player).  If the answer is already correct the function returns at once.
Otherwise it sets `is_correct = true` on the answer row and writes
`score = (answer.player?.score || 0) + 1` to the owning player's row;
the joined player is the current row of `players`, looked up here. -/
def markAnswerCorrect (db : DB) (a : Answer) : DB :=
  if a.is_correct then db
  else
    let base : Int :=
      match db.players.find? (fun p => p.id == a.player_id) with
      | some p => p.score
      | none => 0
    { db with
      answers := db.answers.map
        (fun x => if x.id == a.id then { x with is_correct := true } else x),
      players := db.players.map
        (fun p => if p.id == a.player_id then { p with score := base + 1 } else p) }

/-- One host click on `markAnswerCorrect` for the answer with this id,
passing the answer row as currently stored (the host UI reloads the
answer list after each grading, so the clicked row is the stored one). -/
def markCorrectById (db : DB) (answerId : Nat) : DB :=
  match db.answers.find? (fun x => x.id == answerId) with
  | none => db
  | some a => markAnswerCorrect db a

/-- `updatePlayerScore` from `HostClient.tsx`: looks the player up, and
if present writes `score = Math.max(0, player.score + amount)`. -/
def updatePlayerScore (db : DB) (playerId : Nat) (amount : Int) : DB :=
  match db.players.find? (fun p => p.id == playerId) with
  | none => db
  | some p =>
    let newScore : Int := max 0 (p.score + amount)
    { db with
      players := db.players.map
        (fun q => if q.id == playerId then { q with score := newScore } else q) }

/-- A sequence of `updatePlayerScore` calls, each `(playerId, delta)`. -/
def adjustScoreSeq (ops : List (Nat × Int)) (db : DB) : DB :=
  ops.foldl (fun s o => updatePlayerScore s o.1 o.2) db

/-- Every stored score is non-negative. -/
def allScoresNonneg (db : DB) : Prop :=
  ∀ p ∈ db.players, 0 ≤ p.score

instance (db : DB) : Decidable (allScoresNonneg db) := by
  unfold allScoresNonneg; infer_instance

/-- Outcome of `submitAnswer` (`PlayClient`).  The source guard is
`if (!answer.trim() || !currentQuestion || hasAnswered || isSubmitting)
return;` — one constructor per disjunct, in the source's short-circuit
order (`isSubmitting` is the re-entrancy flag, always false when a call
starts, and is omitted). -/
inductive SubmitResult where
  | ok (a : Answer)
  | emptyText
  | noActiveQuestion
  | alreadyAnswered
deriving Repr, DecidableEq

/-- `submitAnswer` from the player client: on passing the guard it
inserts `{player_id, question_id: currentQuestion.id, room_id, text:
answer.trim(), response_time, is_correct: false}` and sets
`hasAnswered`.  `roomId` is `playerRoomIdRef.current`, the room id of
the loaded player; `responseTime` is the client-measured
`Date.now() - questionStartTime`, passed in as a parameter. -/
def submitAnswer (db : DB) (st : PlayState) (playerId roomId : Nat)
    (text : String) (responseTime : Nat) : SubmitResult × PlayState × DB :=
  if jsTrim text == "" then (SubmitResult.emptyText, st, db)
  else
    match st.currentQuestion with
    | none => (SubmitResult.noActiveQuestion, st, db)
    | some q =>
      if st.hasAnswered then (SubmitResult.alreadyAnswered, st, db)
      else
        let a : Answer :=
          { id := db.nextId, player_id := playerId, question_id := q.id,
            room_id := roomId, text := jsTrim text,
            response_time := responseTime, is_correct := false }
        (SubmitResult.ok a,
         { st with hasAnswered := true },
         { db with answers := db.answers ++ [a], nextId := db.nextId + 1 })

/-- Number of stored answers for one `(playerId, questionId)` pair. -/
def countAnswersFor (db : DB) (playerId questionId : Nat) : Nat :=
  (db.answers.filter
    (fun a => a.player_id == playerId && a.question_id == questionId)).length

/-- The answer row a successful `submitAnswer` inserts for player `p`
answering question `q`: trimmed text, `is_correct = false`, and the
submitting player's room id (`playerRoomIdRef.current`). -/
def submittedAnswerRec (db : DB) (p : Player) (q : Question)
    (text : String) (responseTime : Nat) : Answer :=
  { id := db.nextId, player_id := p.id, question_id := q.id, room_id := p.room_id,
    text := jsTrim text, response_time := responseTime, is_correct := false }

/-! ### Helper lemmas -/

/-- After the deactivation update, no question of the room is active. -/
theorem filter_active_map_deactivateIn (l : List Question) (r : Nat) :
    (l.map (deactivateIn r)).filter (fun q => q.room_id == r && q.is_active) = [] := by
  induction l with
  | nil => rfl
  | cons q rest ih =>
    by_cases h : (q.room_id == r && q.is_active) = true
    · simp [deactivateIn, h, ih]
    · simp only [List.map_cons, List.filter_cons, deactivateIn, h, if_neg]
      simp only [Bool.not_eq_true] at h
      simp [h, ih]

/-- A rejected `sendQuestion` call leaves the state unchanged. -/
theorem sendQuestion_invalid_eq (db : DB) (r : Nat) (t a : String)
    (h : (jsTrim t == "" || jsTrim a == "") = true) :
    sendQuestion db r t a = (SendResult.invalidArgument, db) := by
  simp [sendQuestion, h]

/-- A successful `sendQuestion` call leaves the room with exactly one
active question. -/
theorem countActive_sendQuestion_valid (db : DB) (r : Nat) (t a : String)
    (h : (jsTrim t == "" || jsTrim a == "") = false) :
    countActiveQuestions (sendQuestion db r t a).2 r = 1 := by
  simp only [sendQuestion, h, Bool.false_eq_true, if_false]
  simp [countActiveQuestions, List.filter_append, filter_active_map_deactivateIn,
    newQuestionRec]

/-- One `sendQuestion` call preserves the at-most-one-active invariant. -/
theorem countActive_sendQuestion_le (db : DB) (r : Nat) (t a : String)
    (h : countActiveQuestions db r ≤ 1) :
    countActiveQuestions (sendQuestion db r t a).2 r ≤ 1 := by
  by_cases hg : (jsTrim t == "" || jsTrim a == "") = true
  · rw [sendQuestion_invalid_eq db r t a hg]; exact h
  · rw [countActive_sendQuestion_valid db r t a (by simpa using hg)]

/-- The invariant is preserved by any whole sequence of calls. -/
theorem countActive_sendQuestionSeq_le (r : Nat) (calls : List (String × String)) :
    ∀ db : DB, countActiveQuestions db r ≤ 1 →
      countActiveQuestions (sendQuestionSeq r calls db) r ≤ 1 := by
  induction calls with
  | nil => intro db h; exact h
  | cons c rest ih =>
    intro db h
    have hstep := countActive_sendQuestion_le db r c.1 c.2 h
    simpa [sendQuestionSeq, List.foldl_cons] using ih _ hstep

/-! ### C1: at most one active question per room -/

/-- Claim C1: for every room and every sequence of `sendQuestion` calls
on that room, at most one question of the room is active after each
call completes (each call deactivates the room's active question before
inserting the new sole active one).  Starting from a state satisfying
the invariant, every prefix of the call sequence ends in a state
satisfying it. -/
theorem sendQuestion_at_most_one_active (db : DB) (r : Nat)
    (h : countActiveQuestions db r ≤ 1)
    (calls : List (String × String)) (n : Nat) :
    countActiveQuestions (sendQuestionSeq r (calls.take n) db) r ≤ 1 :=
  countActive_sendQuestionSeq_le r (calls.take n) db h

/-- Witness for C1 at a concrete state and call sequence. -/
theorem sendQuestion_at_most_one_active_witness :
    countActiveQuestions
      (sendQuestionSeq 0 ([("2+2?", "4"), ("3+3?", "6")].take 2)
        { rooms := [⟨0, "AB12CD", "Nouvelle partie", true⟩],
          players := [], questions := [], answers := [], nextId := 1 }) 0 ≤ 1 :=
  sendQuestion_at_most_one_active
    { rooms := [⟨0, "AB12CD", "Nouvelle partie", true⟩],
      players := [], questions := [], answers := [], nextId := 1 }
    0 (by decide) [("2+2?", "4"), ("3+3?", "6")] 2

/-- Every question of the room is inactive after the deactivation
update. -/
theorem deactivateIn_inactive (l : List Question) (r : Nat) :
    ∀ q ∈ l.map (deactivateIn r), q.room_id = r → q.is_active = false := by
  intro q hq hr
  simp only [List.mem_map] at hq
  obtain ⟨q0, _, rfl⟩ := hq
  by_cases h : (q0.room_id == r && q0.is_active) = true
  · simp [deactivateIn, h]
  · simp only [deactivateIn, h, Bool.false_eq_true, if_false] at hr ⊢
    simp only [Bool.and_eq_true, beq_iff_eq, not_and] at h
    exact Bool.not_eq_true _ |>.mp (h hr)

/-- A successful `sendQuestion` call, unfolded. -/
theorem sendQuestion_valid_eq (db : DB) (r : Nat) (t a : String)
    (ht : (jsTrim t == "") = false) (ha : (jsTrim a == "") = false) :
    sendQuestion db r t a =
      (SendResult.ok (newQuestionRec db r t a),
       { db with
          questions := db.questions.map (deactivateIn r) ++ [newQuestionRec db r t a],
          answers := db.answers.filter (fun x => x.room_id != r),
          nextId := db.nextId + 1 }) := by
  simp [sendQuestion, ht, ha]

/-- `sendQuestion` never adds an answer row: every answer stored after a
call was stored, identically, before it. -/
theorem sendQuestion_answers_subset (db : DB) (r : Nat) (t a : String) :
    ∀ x ∈ (sendQuestion db r t a).2.answers, x ∈ db.answers := by
  intro x hx
  by_cases hg : (jsTrim t == "" || jsTrim a == "") = true
  · rw [sendQuestion_invalid_eq db r t a hg] at hx
    exact hx
  · simp only [Bool.or_eq_true, not_or, Bool.not_eq_true] at hg
    rw [sendQuestion_valid_eq db r t a hg.1 hg.2] at hx
    exact List.mem_of_mem_filter hx

/-! ### C7: sendQuestion rejects empty input, stores trimmed input -/

/-- Claim C7: `sendQuestion` rejects the call — inserting nothing and
leaving the state unchanged — whenever the question text or the correct
answer is empty after trimming (the source shows the warning
notification and returns: the `invalidArgument` outcome); when both are
non-empty after trimming, the inserted question stores the trimmed text
and the trimmed correct answer. -/
theorem sendQuestion_rejects_empty (db : DB) (r : Nat) (text ans : String) :
    (((jsTrim text == "") = true ∨ (jsTrim ans == "") = true) →
       sendQuestion db r text ans = (SendResult.invalidArgument, db)) ∧
    ((jsTrim text == "") = false → (jsTrim ans == "") = false →
       (sendQuestion db r text ans).1 = SendResult.ok (newQuestionRec db r text ans) ∧
       newQuestionRec db r text ans ∈ (sendQuestion db r text ans).2.questions ∧
       (newQuestionRec db r text ans).text = jsTrim text ∧
       (newQuestionRec db r text ans).correct_answer = jsTrim ans) := by
  constructor
  · intro h
    apply sendQuestion_invalid_eq
    rcases h with h | h <;> simp [h]
  · intro ht ha
    rw [sendQuestion_valid_eq db r text ans ht ha]
    refine ⟨rfl, ?_, rfl, rfl⟩
    simp

/-- Witness for C7: a rejected call at a whitespace-only text and an
accepted call storing trimmed fields. -/
theorem sendQuestion_rejects_empty_witness :
    sendQuestion { rooms := [], players := [], questions := [], answers := [], nextId := 0 }
        0 "   " "4" =
      (SendResult.invalidArgument,
       { rooms := [], players := [], questions := [], answers := [], nextId := 0 }) ∧
    (sendQuestion { rooms := [], players := [], questions := [], answers := [], nextId := 0 }
        0 " 2+2? " " 4 ").1 =
      SendResult.ok
        (newQuestionRec { rooms := [], players := [], questions := [], answers := [], nextId := 0 }
          0 " 2+2? " " 4 ") :=
  ⟨(sendQuestion_rejects_empty
      { rooms := [], players := [], questions := [], answers := [], nextId := 0 }
      0 "   " "4").1 (Or.inl (by decide)),
   ((sendQuestion_rejects_empty
      { rooms := [], players := [], questions := [], answers := [], nextId := 0 }
      0 " 2+2? " " 4 ").2 (by decide) (by decide)).1⟩

/-! ### C5: the three effects of a successful sendQuestion -/

/-- Claim C5: a successful `sendQuestion` performs exactly three effects
on the room: it deactivates any currently active question of the room
(afterwards the new question is the room's sole active one), deletes all
answers stored for the room, and inserts the new question with
`is_active = true`. -/
theorem sendQuestion_effects (db : DB) (r : Nat) (text ans : String)
    (ht : (jsTrim text == "") = false) (ha : (jsTrim ans == "") = false) :
    (sendQuestion db r text ans).1 = SendResult.ok (newQuestionRec db r text ans) ∧
    (sendQuestion db r text ans).2.questions =
      db.questions.map (deactivateIn r) ++ [newQuestionRec db r text ans] ∧
    (sendQuestion db r text ans).2.answers =
      db.answers.filter (fun x => x.room_id != r) ∧
    (∀ x ∈ (sendQuestion db r text ans).2.answers, x.room_id ≠ r) ∧
    (newQuestionRec db r text ans).is_active = true ∧
    (∀ q ∈ (sendQuestion db r text ans).2.questions,
       q.room_id = r → q.is_active = true → q = newQuestionRec db r text ans) := by
  rw [sendQuestion_valid_eq db r text ans ht ha]
  refine ⟨rfl, rfl, rfl, ?_, rfl, ?_⟩
  · intro x hx
    have := List.of_mem_filter hx
    simpa using this
  · intro q hq hr hact
    rcases List.mem_append.mp hq with hq | hq
    · exact absurd (deactivateIn_inactive db.questions r q hq hr) (by simp [hact])
    · simpa using hq

/-- Witness for C5 at a concrete state with one active question and two
stored answers. -/
theorem sendQuestion_effects_witness :
    (sendQuestion
      { rooms := [⟨0, "AB12CD", "Nouvelle partie", true⟩],
        players := [⟨1, "Alice", 0, 0, true⟩, ⟨2, "Bob", 0, 0, true⟩],
        questions := [⟨5, 0, "2+2?", "4", true⟩],
        answers := [⟨7, 1, 5, 0, "4", 1200, false⟩, ⟨8, 2, 5, 0, "5", 900, false⟩],
        nextId := 9 } 0 "3+3?" "6").1 =
      SendResult.ok
        (newQuestionRec
          { rooms := [⟨0, "AB12CD", "Nouvelle partie", true⟩],
            players := [⟨1, "Alice", 0, 0, true⟩, ⟨2, "Bob", 0, 0, true⟩],
            questions := [⟨5, 0, "2+2?", "4", true⟩],
            answers := [⟨7, 1, 5, 0, "4", 1200, false⟩, ⟨8, 2, 5, 0, "5", 900, false⟩],
            nextId := 9 } 0 "3+3?" "6") :=
  (sendQuestion_effects
    { rooms := [⟨0, "AB12CD", "Nouvelle partie", true⟩],
      players := [⟨1, "Alice", 0, 0, true⟩, ⟨2, "Bob", 0, 0, true⟩],
      questions := [⟨5, 0, "2+2?", "4", true⟩],
      answers := [⟨7, 1, 5, 0, "4", 1200, false⟩, ⟨8, 2, 5, 0, "5", 900, false⟩],
      nextId := 9 } 0 "3+3?" "6" (by decide) (by decide)).1

/-! ### C9: sendQuestion does not alter stored answers -/

/-- Claim C9: with two players' answers stored for the same active
question, sending a new question (which deactivates that question) does
not retroactively alter either stored answer's `is_correct` flag: every
answer row still stored after the call is byte-for-byte a row that was
stored before it (the command deletes the room's answer rows but never
updates one), so no surviving row with either answer's id carries a
changed flag. -/
theorem sendQuestion_preserves_answer_flags (db : DB) (r : Nat) (text ans : String)
    (q : Question) (a1 a2 : Answer)
    (hqmem : q ∈ db.questions) (hqact : q.is_active = true)
    (h1 : a1 ∈ db.answers) (h2 : a2 ∈ db.answers)
    (hq1 : a1.question_id = q.id) (hq2 : a2.question_id = q.id)
    (hpp : a1.player_id ≠ a2.player_id)
    (hids : (db.answers.map (fun x => x.id)).Nodup) :
    ∀ x ∈ (sendQuestion db r text ans).2.answers,
      x ∈ db.answers ∧
      (x.id = a1.id → x.is_correct = a1.is_correct) ∧
      (x.id = a2.id → x.is_correct = a2.is_correct) := by
  intro x hx
  have hmem : x ∈ db.answers := sendQuestion_answers_subset db r text ans x hx
  have hinj := List.inj_on_of_nodup_map hids
  refine ⟨hmem, ?_, ?_⟩
  · intro hid
    have : x = a1 := hinj hmem h1 hid
    rw [this]
  · intro hid
    have : x = a2 := hinj hmem h2 hid
    rw [this]

/-- Witness for C9: Alice and Bob have answered question 5 of room 0; a
new question is sent to room 0.  The theorem is applied to the one
answer row still stored afterwards (Carl's answer in room 1): it is a
row of the prior state, and were its id 7 or 8 its flag would equal the
prior one. -/
theorem sendQuestion_preserves_answer_flags_witness :
    (⟨9, 3, 6, 1, "2", 500, true⟩ : Answer) ∈
      ({ rooms := [⟨0, "AB12CD", "Nouvelle partie", true⟩, ⟨1, "ZZZZZZ", "Nouvelle partie", true⟩],
         players := [⟨1, "Alice", 0, 0, true⟩, ⟨2, "Bob", 0, 0, true⟩, ⟨3, "Carl", 1, 0, true⟩],
         questions := [⟨5, 0, "2+2?", "4", true⟩, ⟨6, 1, "1+1?", "2", true⟩],
         answers := [⟨7, 1, 5, 0, "4", 1200, false⟩, ⟨8, 2, 5, 0, "5", 900, true⟩,
                     ⟨9, 3, 6, 1, "2", 500, true⟩],
         nextId := 10 } : DB).answers ∧
    ((⟨9, 3, 6, 1, "2", 500, true⟩ : Answer).id =
        (⟨7, 1, 5, 0, "4", 1200, false⟩ : Answer).id →
      (⟨9, 3, 6, 1, "2", 500, true⟩ : Answer).is_correct =
        (⟨7, 1, 5, 0, "4", 1200, false⟩ : Answer).is_correct) ∧
    ((⟨9, 3, 6, 1, "2", 500, true⟩ : Answer).id =
        (⟨8, 2, 5, 0, "5", 900, true⟩ : Answer).id →
      (⟨9, 3, 6, 1, "2", 500, true⟩ : Answer).is_correct =
        (⟨8, 2, 5, 0, "5", 900, true⟩ : Answer).is_correct) :=
  sendQuestion_preserves_answer_flags
    { rooms := [⟨0, "AB12CD", "Nouvelle partie", true⟩, ⟨1, "ZZZZZZ", "Nouvelle partie", true⟩],
      players := [⟨1, "Alice", 0, 0, true⟩, ⟨2, "Bob", 0, 0, true⟩, ⟨3, "Carl", 1, 0, true⟩],
      questions := [⟨5, 0, "2+2?", "4", true⟩, ⟨6, 1, "1+1?", "2", true⟩],
      answers := [⟨7, 1, 5, 0, "4", 1200, false⟩, ⟨8, 2, 5, 0, "5", 900, true⟩,
                  ⟨9, 3, 6, 1, "2", 500, true⟩],
      nextId := 10 } 0 "3+3?" "6"
    ⟨5, 0, "2+2?", "4", true⟩ ⟨7, 1, 5, 0, "4", 1200, false⟩ ⟨8, 2, 5, 0, "5", 900, true⟩
    (by decide) rfl (by decide) (by decide) rfl rfl (by decide) (by decide)
    ⟨9, 3, 6, 1, "2", 500, true⟩ (by decide)

/-! ### C4: scores are clamped at a floor of 0 -/

/-- One `updatePlayerScore` call preserves non-negativity of all
scores: the written score is `Math.max(0, score + amount)`. -/
theorem updatePlayerScore_nonneg (db : DB) (pid : Nat) (amt : Int)
    (h : allScoresNonneg db) : allScoresNonneg (updatePlayerScore db pid amt) := by
  unfold updatePlayerScore
  cases hf : db.players.find? (fun p => p.id == pid) with
  | none => exact h
  | some p =>
    intro q hq
    simp only [List.mem_map] at hq
    obtain ⟨q0, hq0, rfl⟩ := hq
    by_cases hid : (q0.id == pid) = true
    · simp only [hid, if_true]
      exact le_max_left 0 _
    · simp only [hid, Bool.false_eq_true, if_false]
      exact h q0 hq0

/-- Claim C4: for every player, every delta of any sign and magnitude
and every sequence of `adjustScore` (`updatePlayerScore`) calls, every
resulting score is clamped at a floor of 0 and never negative.  Every
prefix of the operation sequence keeps all scores non-negative. -/
theorem adjustScore_never_negative (db : DB) (h : allScoresNonneg db)
    (ops : List (Nat × Int)) (n : Nat) :
    allScoresNonneg (adjustScoreSeq (ops.take n) db) := by
  have main : ∀ l : List (Nat × Int), ∀ s : DB, allScoresNonneg s →
      allScoresNonneg (adjustScoreSeq l s) := by
    intro l
    induction l with
    | nil => intro s hs; exact hs
    | cons o rest ih =>
      intro s hs
      have hstep := updatePlayerScore_nonneg s o.1 o.2 hs
      simpa [adjustScoreSeq, List.foldl_cons] using ih _ hstep
  exact main (ops.take n) db h

/-- Witness for C4 at a concrete state and operation sequence. -/
theorem adjustScore_never_negative_witness :
    allScoresNonneg
      (adjustScoreSeq ([(1, -5), (1, 3), (2, -100)].take 3)
        { rooms := [], players := [⟨1, "Alice", 0, 0, true⟩, ⟨2, "Bob", 0, 2, true⟩],
          questions := [], answers := [], nextId := 3 }) :=
  adjustScore_never_negative
    { rooms := [], players := [⟨1, "Alice", 0, 0, true⟩, ⟨2, "Bob", 0, 2, true⟩],
      questions := [], answers := [], nextId := 3 }
    (by decide) [(1, -5), (1, 3), (2, -100)] 3

/-! ### C2: a second submitAnswer for the same (player, question) is rejected -/

/-- Claim C2: calling `submitAnswer` twice for the same
(player, question) pair leaves exactly one stored answer for the pair,
and the second call is rejected because an answer already exists (the
source guard's `hasAnswered` disjunct, set by the first call and —
after a reload — by the existence of the stored answer; the code shows
no error, it returns without inserting, which is the spec's
`AlreadyExists` rejection). -/
theorem submitAnswer_twice_one_answer (db : DB) (st : PlayState) (pid rid : Nat)
    (text : String) (t1 t2 : Nat) (q : Question)
    (hq : st.currentQuestion = some q)
    (hans : st.hasAnswered = false)
    (hte : (jsTrim text == "") = false)
    (h0 : countAnswersFor db pid q.id = 0) :
    (submitAnswer (submitAnswer db st pid rid text t1).2.2
        (submitAnswer db st pid rid text t1).2.1 pid rid text t2).1 =
      SubmitResult.alreadyAnswered ∧
    countAnswersFor
      (submitAnswer (submitAnswer db st pid rid text t1).2.2
        (submitAnswer db st pid rid text t1).2.1 pid rid text t2).2.2 pid q.id = 1 := by
  have h1 : submitAnswer db st pid rid text t1 =
      (SubmitResult.ok
        { id := db.nextId, player_id := pid, question_id := q.id, room_id := rid,
          text := jsTrim text, response_time := t1, is_correct := false },
       { st with hasAnswered := true },
       { db with
          answers := db.answers ++
            [{ id := db.nextId, player_id := pid, question_id := q.id, room_id := rid,
               text := jsTrim text, response_time := t1, is_correct := false }],
          nextId := db.nextId + 1 }) := by
    simp [submitAnswer, hte, hq, hans]
  have h0' : (db.answers.filter
      (fun a => a.player_id == pid && a.question_id == q.id)).length = 0 := h0
  rw [h1]
  constructor
  · simp [submitAnswer, hte, hq]
  · simp [submitAnswer, hte, hq, countAnswersFor, List.filter_append, h0']

/-- Witness for C2: Alice answers question 5 twice. -/
theorem submitAnswer_twice_one_answer_witness :
    (submitAnswer
      (submitAnswer
        { rooms := [⟨0, "AB12CD", "Nouvelle partie", true⟩],
          players := [⟨1, "Alice", 0, 0, true⟩],
          questions := [⟨5, 0, "2+2?", "4", true⟩], answers := [], nextId := 6 }
        ⟨some ⟨5, 0, "2+2?", "4", true⟩, false⟩ 1 0 "4" 1200).2.2
      (submitAnswer
        { rooms := [⟨0, "AB12CD", "Nouvelle partie", true⟩],
          players := [⟨1, "Alice", 0, 0, true⟩],
          questions := [⟨5, 0, "2+2?", "4", true⟩], answers := [], nextId := 6 }
        ⟨some ⟨5, 0, "2+2?", "4", true⟩, false⟩ 1 0 "4" 1200).2.1 1 0 "4" 1300).1 =
      SubmitResult.alreadyAnswered ∧
    countAnswersFor
      (submitAnswer
        (submitAnswer
          { rooms := [⟨0, "AB12CD", "Nouvelle partie", true⟩],
            players := [⟨1, "Alice", 0, 0, true⟩],
            questions := [⟨5, 0, "2+2?", "4", true⟩], answers := [], nextId := 6 }
          ⟨some ⟨5, 0, "2+2?", "4", true⟩, false⟩ 1 0 "4" 1200).2.2
        (submitAnswer
          { rooms := [⟨0, "AB12CD", "Nouvelle partie", true⟩],
            players := [⟨1, "Alice", 0, 0, true⟩],
            questions := [⟨5, 0, "2+2?", "4", true⟩], answers := [], nextId := 6 }
          ⟨some ⟨5, 0, "2+2?", "4", true⟩, false⟩ 1 0 "4" 1200).2.1 1 0 "4" 1300).2.2
      1 5 = 1 :=
  submitAnswer_twice_one_answer
    { rooms := [⟨0, "AB12CD", "Nouvelle partie", true⟩],
      players := [⟨1, "Alice", 0, 0, true⟩],
      questions := [⟨5, 0, "2+2?", "4", true⟩], answers := [], nextId := 6 }
    ⟨some ⟨5, 0, "2+2?", "4", true⟩, false⟩ 1 0 "4" 1200 1300
    ⟨5, 0, "2+2?", "4", true⟩ rfl rfl (by decide) (by decide)

/-! ### C10: the shape of a submitted answer -/

/-- Claim C10: a `submitAnswer` call whose answer text is empty after
trimming inserts nothing and is a no-op; otherwise (with a question
displayed and not yet answered) the inserted answer's text is the input
with surrounding whitespace removed, its `is_correct` field is false,
and it carries the submitting player's room id. -/
theorem submitAnswer_insert_shape (db : DB) (st : PlayState) (p : Player)
    (text : String) (t : Nat) (q : Question)
    (hq : st.currentQuestion = some q) (hans : st.hasAnswered = false) :
    ((jsTrim text == "") = true →
       submitAnswer db st p.id p.room_id text t = (SubmitResult.emptyText, st, db)) ∧
    ((jsTrim text == "") = false →
       submitAnswer db st p.id p.room_id text t =
         (SubmitResult.ok (submittedAnswerRec db p q text t),
          { st with hasAnswered := true },
          { db with answers := db.answers ++ [submittedAnswerRec db p q text t],
                    nextId := db.nextId + 1 }) ∧
       (submittedAnswerRec db p q text t).text = jsTrim text ∧
       (submittedAnswerRec db p q text t).is_correct = false ∧
       (submittedAnswerRec db p q text t).room_id = p.room_id) := by
  constructor
  · intro h
    simp [submitAnswer, h]
  · intro h
    refine ⟨?_, rfl, rfl, rfl⟩
    simp [submitAnswer, h, hq, hans, submittedAnswerRec]

/-- Witness for C10: a whitespace-only submission is a no-op and a real
submission inserts the trimmed row. -/
theorem submitAnswer_insert_shape_witness :
    submitAnswer
        { rooms := [], players := [⟨1, "Alice", 0, 0, true⟩],
          questions := [⟨5, 0, "2+2?", "4", true⟩], answers := [], nextId := 6 }
        ⟨some ⟨5, 0, "2+2?", "4", true⟩, false⟩ 1 0 "   " 900 =
      (SubmitResult.emptyText, ⟨some ⟨5, 0, "2+2?", "4", true⟩, false⟩,
       { rooms := [], players := [⟨1, "Alice", 0, 0, true⟩],
         questions := [⟨5, 0, "2+2?", "4", true⟩], answers := [], nextId := 6 }) ∧
    (submitAnswer
        { rooms := [], players := [⟨1, "Alice", 0, 0, true⟩],
          questions := [⟨5, 0, "2+2?", "4", true⟩], answers := [], nextId := 6 }
        ⟨some ⟨5, 0, "2+2?", "4", true⟩, false⟩ 1 0 " 4 " 900 =
       (SubmitResult.ok
          (submittedAnswerRec
            { rooms := [], players := [⟨1, "Alice", 0, 0, true⟩],
              questions := [⟨5, 0, "2+2?", "4", true⟩], answers := [], nextId := 6 }
            ⟨1, "Alice", 0, 0, true⟩ ⟨5, 0, "2+2?", "4", true⟩ " 4 " 900),
        ⟨some ⟨5, 0, "2+2?", "4", true⟩, true⟩,
        { rooms := [], players := [⟨1, "Alice", 0, 0, true⟩],
          questions := [⟨5, 0, "2+2?", "4", true⟩],
          answers := [submittedAnswerRec
            { rooms := [], players := [⟨1, "Alice", 0, 0, true⟩],
              questions := [⟨5, 0, "2+2?", "4", true⟩], answers := [], nextId := 6 }
            ⟨1, "Alice", 0, 0, true⟩ ⟨5, 0, "2+2?", "4", true⟩ " 4 " 900],
          nextId := 7 }) ∧
     (submittedAnswerRec
        { rooms := [], players := [⟨1, "Alice", 0, 0, true⟩],
          questions := [⟨5, 0, "2+2?", "4", true⟩], answers := [], nextId := 6 }
        ⟨1, "Alice", 0, 0, true⟩ ⟨5, 0, "2+2?", "4", true⟩ " 4 " 900).text = jsTrim " 4 " ∧
     (submittedAnswerRec
        { rooms := [], players := [⟨1, "Alice", 0, 0, true⟩],
          questions := [⟨5, 0, "2+2?", "4", true⟩], answers := [], nextId := 6 }
        ⟨1, "Alice", 0, 0, true⟩ ⟨5, 0, "2+2?", "4", true⟩ " 4 " 900).is_correct = false ∧
     (submittedAnswerRec
        { rooms := [], players := [⟨1, "Alice", 0, 0, true⟩],
          questions := [⟨5, 0, "2+2?", "4", true⟩], answers := [], nextId := 6 }
        ⟨1, "Alice", 0, 0, true⟩ ⟨5, 0, "2+2?", "4", true⟩ " 4 " 900).room_id = 0) :=
  ⟨(submitAnswer_insert_shape
      { rooms := [], players := [⟨1, "Alice", 0, 0, true⟩],
        questions := [⟨5, 0, "2+2?", "4", true⟩], answers := [], nextId := 6 }
      ⟨some ⟨5, 0, "2+2?", "4", true⟩, false⟩ ⟨1, "Alice", 0, 0, true⟩ "   " 900
      ⟨5, 0, "2+2?", "4", true⟩ rfl rfl).1 (by decide),
   (submitAnswer_insert_shape
      { rooms := [], players := [⟨1, "Alice", 0, 0, true⟩],
        questions := [⟨5, 0, "2+2?", "4", true⟩], answers := [], nextId := 6 }
      ⟨some ⟨5, 0, "2+2?", "4", true⟩, false⟩ ⟨1, "Alice", 0, 0, true⟩ " 4 " 900
      ⟨5, 0, "2+2?", "4", true⟩ rfl rfl).2 (by decide)⟩

/-! ### C3: markCorrect is idempotent and awards exactly one point -/

/-- Writing a score to the rows with a given player id commutes with
looking the first such row up. -/
theorem find?_map_set_score (l : List Player) (pid : Nat) (s : Int) :
    (l.map (fun x => if x.id == pid then { x with score := s } else x)).find?
        (fun x => x.id == pid) =
      (l.find? (fun x => x.id == pid)).map (fun x => { x with score := s }) := by
  induction l with
  | nil => rfl
  | cons x rest ih =>
    by_cases h : (x.id == pid) = true
    · simp only [List.map_cons, if_pos h]
      rw [@List.find?_cons_of_pos _ (fun (y : Player) => y.id == pid) { x with score := s } _ h,
          @List.find?_cons_of_pos _ (fun (y : Player) => y.id == pid) x _ h]
      rfl
    · simp only [List.map_cons, if_neg h]
      rw [@List.find?_cons_of_neg _ (fun (y : Player) => y.id == pid) x _ h,
          @List.find?_cons_of_neg _ (fun (y : Player) => y.id == pid) x _ h, ih]

/-- Setting `is_correct` on the rows with a given answer id commutes
with looking the first such row up. -/
theorem find?_map_set_correct (l : List Answer) (aid : Nat) :
    (l.map (fun x => if x.id == aid then { x with is_correct := true } else x)).find?
        (fun x => x.id == aid) =
      (l.find? (fun x => x.id == aid)).map (fun x => { x with is_correct := true }) := by
  induction l with
  | nil => rfl
  | cons x rest ih =>
    by_cases h : (x.id == aid) = true
    · simp only [List.map_cons, if_pos h]
      rw [@List.find?_cons_of_pos _ (fun (y : Answer) => y.id == aid) { x with is_correct := true } _ h,
          @List.find?_cons_of_pos _ (fun (y : Answer) => y.id == aid) x _ h]
      rfl
    · simp only [List.map_cons, if_neg h]
      rw [@List.find?_cons_of_neg _ (fun (y : Answer) => y.id == aid) x _ h,
          @List.find?_cons_of_neg _ (fun (y : Answer) => y.id == aid) x _ h, ih]

/-- Claim C3: `markCorrect` is idempotent.  If the clicked answer is
already marked correct the call is a no-op; otherwise it sets
`is_correct = true` and writes the owning player's score plus one, so a
second click on the same answer changes nothing and the two calls
together increment the owning player's score by exactly 1, not 2. -/
theorem markCorrect_twice_increments_once (db : DB) (aid : Nat) (a : Answer) (p : Player)
    (hfa : db.answers.find? (fun x => x.id == aid) = some a)
    (hac : a.is_correct = false)
    (hfp : db.players.find? (fun x => x.id == a.player_id) = some p) :
    markCorrectById (markCorrectById db aid) aid = markCorrectById db aid ∧
    (markCorrectById db aid).players.find? (fun x => x.id == a.player_id) =
      some { p with score := p.score + 1 } := by
  have heq : a.id = aid := by simpa using List.find?_some hfa
  subst heq
  have hone : markCorrectById db a.id =
      { db with
        answers := db.answers.map
          (fun x => if x.id == a.id then { x with is_correct := true } else x),
        players := db.players.map
          (fun x => if x.id == a.player_id then { x with score := p.score + 1 } else x) } := by
    simp only [markCorrectById, hfa]
    simp only [markAnswerCorrect, hac, hfp]
    simp
  rw [hone]
  have hfa1 : ({ db with
      answers := db.answers.map
        (fun x => if x.id == a.id then { x with is_correct := true } else x),
      players := db.players.map
        (fun x => if x.id == a.player_id then { x with score := p.score + 1 } else x)
      : DB }).answers.find? (fun x => x.id == a.id) =
      some { a with is_correct := true } := by
    show (db.answers.map
      (fun x => if x.id == a.id then { x with is_correct := true } else x)).find?
        (fun x => x.id == a.id) = some { a with is_correct := true }
    rw [find?_map_set_correct, hfa]
    rfl
  constructor
  · simp only [markCorrectById, hfa1]
    simp [markAnswerCorrect]
  · show (db.players.map
      (fun x => if x.id == a.player_id then { x with score := p.score + 1 } else x)).find?
        (fun x => x.id == a.player_id) = some { p with score := p.score + 1 }
    rw [find?_map_set_score, hfp]
    rfl

/-- Witness for C3: grading Alice's answer twice leaves her score at 4,
one more than before. -/
theorem markCorrect_twice_increments_once_witness :
    markCorrectById
        (markCorrectById
          { rooms := [], players := [⟨1, "Alice", 0, 3, true⟩], questions := [],
            answers := [⟨7, 1, 5, 0, "4", 1200, false⟩], nextId := 8 } 7) 7 =
      markCorrectById
        { rooms := [], players := [⟨1, "Alice", 0, 3, true⟩], questions := [],
          answers := [⟨7, 1, 5, 0, "4", 1200, false⟩], nextId := 8 } 7 ∧
    (markCorrectById
        { rooms := [], players := [⟨1, "Alice", 0, 3, true⟩], questions := [],
          answers := [⟨7, 1, 5, 0, "4", 1200, false⟩], nextId := 8 } 7).players.find?
        (fun x => x.id == 1) =
      some ⟨1, "Alice", 0, 3 + 1, true⟩ :=
  markCorrect_twice_increments_once
    { rooms := [], players := [⟨1, "Alice", 0, 3, true⟩], questions := [],
      answers := [⟨7, 1, 5, 0, "4", 1200, false⟩], nextId := 8 }
    7 ⟨7, 1, 5, 0, "4", 1200, false⟩ ⟨1, "Alice", 0, 3, true⟩
    (by decide) rfl (by decide)

/-! ### C8: endGame deletes the room and all owned entities -/

/-- Claim C8: `endGame(roomId)` deletes the room row and all entities
owned by it (its players, questions and answers), and a subsequent
`joinRoom` with that room's code fails with not-found (the lookup for an
active room with that code finds nothing, the code check that every
later room-referencing command performs).  The uniqueness hypothesis is
the `UNIQUE` constraint on `rooms.code`. -/
theorem endGame_cascades_and_notFound (db : DB) (room : Room) (pseudo : String)
    (hr : room ∈ db.rooms)
    (hnorm : jsToUpper (jsTrim room.code) = room.code)
    (hne : (room.code == "") = false)
    (huniq : ∀ r ∈ db.rooms, r.code = room.code → r.id = room.id)
    (hps : (jsTrim pseudo == "") = false) :
    (∀ r ∈ (endGame db room.id).rooms, r.id ≠ room.id) ∧
    (∀ p ∈ (endGame db room.id).players, p.room_id ≠ room.id) ∧
    (∀ q ∈ (endGame db room.id).questions, q.room_id ≠ room.id) ∧
    (∀ a ∈ (endGame db room.id).answers, a.room_id ≠ room.id) ∧
    (joinRoom (endGame db room.id) room.code pseudo).1 = JoinResult.notFound := by
  refine ⟨?_, ?_, ?_, ?_, ?_⟩
  · intro r hx
    have := (List.mem_filter.mp hx).2
    simpa using this
  · intro p' hx
    have := (List.mem_filter.mp hx).2
    simpa using this
  · intro q hx
    have := (List.mem_filter.mp hx).2
    simpa using this
  · intro x hx
    have := (List.mem_filter.mp hx).2
    simpa using this
  · have hfind : (endGame db room.id).rooms.find?
        (fun r => r.code == room.code && r.is_active) = none := by
      apply List.find?_eq_none.mpr
      intro x hx hpx
      have hx' := List.mem_filter.mp hx
      have hcode : x.code = room.code := by
        have := (Bool.and_eq_true _ _).mp hpx
        exact beq_iff_eq.mp this.1
      have : x.id = room.id := huniq x hx'.1 hcode
      have hne' : (x.id != room.id) = true := hx'.2
      simp [this] at hne'
    simp only [joinRoom, hnorm]
    rw [if_neg (by simp [hne, hps])]
    rw [hfind]

/-- Witness for C8 at a concrete populated room. -/
theorem endGame_cascades_and_notFound_witness :
    (∀ r ∈ (endGame
      { rooms := [⟨0, "AB12CD", "Nouvelle partie", true⟩],
        players := [⟨1, "Alice", 0, 3, true⟩],
        questions := [⟨5, 0, "2+2?", "4", true⟩],
        answers := [⟨7, 1, 5, 0, "4", 1200, true⟩], nextId := 8 } 0).rooms, r.id ≠ 0) ∧
    (∀ p ∈ (endGame
      { rooms := [⟨0, "AB12CD", "Nouvelle partie", true⟩],
        players := [⟨1, "Alice", 0, 3, true⟩],
        questions := [⟨5, 0, "2+2?", "4", true⟩],
        answers := [⟨7, 1, 5, 0, "4", 1200, true⟩], nextId := 8 } 0).players, p.room_id ≠ 0) ∧
    (∀ q ∈ (endGame
      { rooms := [⟨0, "AB12CD", "Nouvelle partie", true⟩],
        players := [⟨1, "Alice", 0, 3, true⟩],
        questions := [⟨5, 0, "2+2?", "4", true⟩],
        answers := [⟨7, 1, 5, 0, "4", 1200, true⟩], nextId := 8 } 0).questions, q.room_id ≠ 0) ∧
    (∀ a ∈ (endGame
      { rooms := [⟨0, "AB12CD", "Nouvelle partie", true⟩],
        players := [⟨1, "Alice", 0, 3, true⟩],
        questions := [⟨5, 0, "2+2?", "4", true⟩],
        answers := [⟨7, 1, 5, 0, "4", 1200, true⟩], nextId := 8 } 0).answers, a.room_id ≠ 0) ∧
    (joinRoom (endGame
      { rooms := [⟨0, "AB12CD", "Nouvelle partie", true⟩],
        players := [⟨1, "Alice", 0, 3, true⟩],
        questions := [⟨5, 0, "2+2?", "4", true⟩],
        answers := [⟨7, 1, 5, 0, "4", 1200, true⟩], nextId := 8 } 0)
      "AB12CD" "Bob").1 = JoinResult.notFound :=
  endGame_cascades_and_notFound
    { rooms := [⟨0, "AB12CD", "Nouvelle partie", true⟩],
      players := [⟨1, "Alice", 0, 3, true⟩],
      questions := [⟨5, 0, "2+2?", "4", true⟩],
      answers := [⟨7, 1, 5, 0, "4", 1200, true⟩], nextId := 8 }
    ⟨0, "AB12CD", "Nouvelle partie", true⟩ "Bob"
    (by decide) (by decide) (by decide) (by decide) (by decide)

/-! ### C6: room-code generation (corrected)

The claim says `createRoom` retries random generation until the code is
collision-free, fails with resource exhaustion only at a retry cap, and
that every assigned code has exactly 6 characters.  The source has no
loop: `createRoom` calls `generateRoomCode()` once and inserts; a
collision simply makes the single insert fail.  And
`Math.random().toString(36).substring(2, 8)` yields fewer than 6
characters whenever the draw's base-36 expansion is short — e.g. the
draw 0.5 prints as `"0.i"`, so the assigned code is `"I"`, length 1. -/

/-- Counterexample to C6 as stated: with the random draw 0.5 (base-36
digit list `[18]`), `createRoom` on an empty state succeeds and assigns
the code `"I"`, which has length 1, not 6; and with a state already
holding a room coded `"I"`, the same draw makes `createRoom` fail at
once (a single database error, not a retry loop ending in resource
exhaustion). -/
theorem createRoom_code_length_counterexample :
    (createRoom { rooms := [], players := [], questions := [], answers := [], nextId := 0 }
        [(18 : Fin 36)]).2.rooms =
      [{ id := 0, code := "I", name := "Nouvelle partie", is_active := true }] ∧
    ("I".length = 6 → False) ∧
    createRoom
        { rooms := [⟨3, "I", "Nouvelle partie", true⟩], players := [],
          questions := [], answers := [], nextId := 4 } [(18 : Fin 36)] =
      (CreateResult.dbError,
       { rooms := [⟨3, "I", "Nouvelle partie", true⟩], players := [],
         questions := [], answers := [], nextId := 4 }) := by
  refine ⟨by decide, by decide, by decide⟩

/-- Claim C6 as amended: `createRoom` makes a single attempt — it
generates one pseudo-random code of at most 6 characters (fewer when
the random draw's base-36 representation is short) and inserts it; if
the code collides with an existing room's code the call fails
immediately with the database uniqueness error and no retry; otherwise
the room is created, active, with that code. -/
theorem createRoom_single_attempt (db : DB) (digits : List (Fin 36)) :
    (generateRoomCode digits).length ≤ 6 ∧
    ((db.rooms.any (fun r => r.code == generateRoomCode digits)) = true →
       createRoom db digits = (CreateResult.dbError, db)) ∧
    ((db.rooms.any (fun r => r.code == generateRoomCode digits)) = false →
       createRoom db digits =
         (CreateResult.ok
            { id := db.nextId, code := generateRoomCode digits,
              name := "Nouvelle partie", is_active := true },
          { db with
              rooms := db.rooms ++
                [{ id := db.nextId, code := generateRoomCode digits,
                   name := "Nouvelle partie", is_active := true }],
              nextId := db.nextId + 1 })) := by
  refine ⟨?_, ?_, ?_⟩
  · unfold generateRoomCode
    rw [show ∀ l : List Char, (String.mk l).length = l.length from fun l => rfl]
    rw [List.length_map]
    exact List.length_take_le _ _
  · intro h
    simp [createRoom, h]
  · intro h
    simp [createRoom, h]

/-- Witness for the amended C6: a fresh-code call on an empty state. -/
theorem createRoom_single_attempt_witness :
    (generateRoomCode [(18 : Fin 36)]).length ≤ 6 ∧
    createRoom { rooms := [], players := [], questions := [], answers := [], nextId := 0 }
        [(18 : Fin 36)] =
      (CreateResult.ok
         { id := 0, code := generateRoomCode [(18 : Fin 36)],
           name := "Nouvelle partie", is_active := true },
       { rooms := [{ id := 0, code := generateRoomCode [(18 : Fin 36)],
                     name := "Nouvelle partie", is_active := true }],
         players := [], questions := [], answers := [], nextId := 1 }) :=
  ⟨(createRoom_single_attempt
      { rooms := [], players := [], questions := [], answers := [], nextId := 0 }
      [(18 : Fin 36)]).1,
   (createRoom_single_attempt
      { rooms := [], players := [], questions := [], answers := [], nextId := 0 }
      [(18 : Fin 36)]).2.2 (by decide)⟩

end QuizTime
